import Mathlib

/-!
Verification of the lametric-tesla application core.

The repository holds two near-duplicate variants of the same program:
`src/app.js` (namespace `AppJs` below) and `src/unnamed/part_000`
(namespace `PartA` below).  JavaScript numbers are modelled as rationals,
`Math.round` as the floor of `q + 1/2` (round to nearest, ties toward
positive infinity, which on non-negative inputs is round half away from
zero).  The wake-up retry loop is modelled as a recursion over the stream
of wake-endpoint responses, instrumented with the number of HTTP wake
requests issued and the number of 30-second backoff delays taken.
-/

/-- A single charge-state telemetry record, the `response` object returned
by the charge-state endpoint, with the fields both variants read. -/
structure ChargeTelemetry where
  battery_level : ℚ
  battery_range : ℚ
  charge_rate : ℚ
  charge_miles_added_ideal : ℚ
  time_to_full_charge : ℚ
  charger_actual_current : ℚ
deriving DecidableEq

/-- One display frame: text, icon identifier, and an optional ordinal
(only the `part_000` variant sets `index`). -/
structure Frame where
  text : String
  icon : String
  index : Option Nat
deriving DecidableEq

/-- The payload pushed to the LaMetric display API. -/
structure LametricData where
  frames : List Frame
deriving DecidableEq

/-- JavaScript `Math.round`: nearest integer, ties toward positive
infinity; on non-negative inputs this is round half away from zero. -/
def jsRound (q : ℚ) : ℤ := ⌊q + 1/2⌋

namespace AppJs

/-- Function `getIcon` from `src/app.js`: the charging animation icon when
charging, otherwise a tiered battery icon chosen by level. -/
def getIcon (batteryLevel : ℚ) (isCharging : Bool) : String :=
  if isCharging then "21585"
  else if batteryLevel < 25 then "i6359"
  else if batteryLevel < 50 then "i6360"
  else if batteryLevel < 75 then "i6361"
  else if batteryLevel < 95 then "i6362"
  else "i6363"

/-- Function `constructLametricData` from `src/app.js` (Policy B): three base
frames, plus three charging frames when `charge_rate != -1.0`. -/
def constructLametricData (data : ChargeTelemetry) : LametricData :=
  let isCharging : Bool := if data.charge_rate ≠ -1 then true else false
  let frames : List Frame :=
    [ { text := "Tesla", icon := "i2735", index := none },
      { text := toString (jsRound data.battery_level) ++ "%",
        icon := getIcon data.battery_level isCharging, index := none },
      { text := toString (jsRound data.battery_range) ++ " mi",
        icon := "16716", index := none } ]
  let frames : List Frame :=
    if isCharging then
      frames ++
        [ { text := "+" ++ toString (jsRound data.charge_miles_added_ideal) ++ " mi",
            icon := "i95", index := none },
          { text := toString (jsRound data.charge_rate) ++ " mph",
            icon := "i95", index := none },
          { text := toString (jsRound data.time_to_full_charge) ++ " hours remaining.",
            icon := "i95", index := none } ]
    else frames
  { frames := frames }

/-- The three base frames of the `app.js` payload, named for the
statement of the Policy B layout claim. -/
def baseFrames (data : ChargeTelemetry) : List Frame :=
  [ { text := "Tesla", icon := "i2735", index := none },
    { text := toString (jsRound data.battery_level) ++ "%",
      icon := getIcon data.battery_level (if data.charge_rate ≠ -1 then true else false),
      index := none },
    { text := toString (jsRound data.battery_range) ++ " mi",
      icon := "16716", index := none } ]

/-- The three extra charging frames of the `app.js` payload. -/
def chargingFrames (data : ChargeTelemetry) : List Frame :=
  [ { text := "+" ++ toString (jsRound data.charge_miles_added_ideal) ++ " mi",
      icon := "i95", index := none },
    { text := toString (jsRound data.charge_rate) ++ " mph",
      icon := "i95", index := none },
    { text := toString (jsRound data.time_to_full_charge) ++ " hours remaining.",
      icon := "i95", index := none } ]

end AppJs

namespace PartA

/-- Function `getIcon` from `src/unnamed/part_000`: a fixed idle-battery icon when
not charging, otherwise a tiered battery icon chosen by level. -/
def getIcon (batteryLevel : ℚ) (isCharging : Bool) : String :=
  if !isCharging then "3582"
  else if batteryLevel < 25 then "i6359"
  else if batteryLevel < 50 then "i6360"
  else if batteryLevel < 75 then "i6361"
  else if batteryLevel < 95 then "i6362"
  else "i6363"

/-- Function `constructLametricData` from `src/unnamed/part_000` (Policy A):
always exactly three frames; `isCharging` is derived from
`charger_actual_current > 0` and only affects the icon of frame 1. -/
def constructLametricData (data : ChargeTelemetry) : LametricData :=
  let isCharging : Bool := if data.charger_actual_current > 0 then true else false
  { frames :=
      [ { text := "Tesla", icon := "i2735", index := some 0 },
        { text := toString (jsRound data.battery_level) ++ "%",
          icon := getIcon data.battery_level isCharging, index := some 1 },
        { text := toString (jsRound data.battery_range) ++ " mi",
          icon := "i16716", index := some 2 } ] }

end PartA

/-- Serialization of one frame, in the property order `JSON.stringify`
produces for these objects. -/
def serializeFrame (f : Frame) : String :=
  "\x7b\"text\":\"" ++ f.text ++ "\",\"icon\":\"" ++ f.icon ++ "\"" ++
    (match f.index with
     | none => ""
     | some i => ",\"index\":" ++ toString i) ++ "\x7d"

/-- Serialization of a whole payload, modelling `JSON.stringify` on the
message body sent to the display API. -/
def serialize (d : LametricData) : String :=
  "\x7b\"frames\":[" ++ String.intercalate "," (d.frames.map serializeFrame) ++ "]\x7d"

/-!
The wake-up retry loop.  `wakeUpVehicle` is line-identical in the two
variants.  `resp k` is the `response.state` string of the reply to the
k-th wake request issued in this run (requests are numbered from 1, and
the attempt counter equals the request number since the loop starts at
attempt 1 and issues exactly one request per attempt).  The result is the
triple (returned boolean, number of wake requests issued, number of
30-second backoff delays taken), the latter two instrumenting the side
effects of the call.

Note the control flow of the source: when the state is not "online" and
`attempt < 6`, the code awaits the recursive call but DISCARDS its result
and falls through to the final `return true`.
-/

/-- Function `wakeUpVehicle` from `src/app.js` (identical in `src/unnamed/part_000`),
instrumented with request and delay counts. -/
def wakeUpVehicle (resp : Nat → String) (attempt : Nat) : Bool × Nat × Nat :=
  if resp attempt = "online" then
    (true, 1, 0)
  else if h : 6 ≤ attempt then
    (false, 1, 0)
  else
    let r := wakeUpVehicle resp (attempt + 1)
    (true, r.2.1 + 1, r.2.2 + 1)
termination_by 6 - attempt
decreasing_by omega

/-- Which collaborators a run invoked, and the payload it pushed. -/
structure RunResult where
  isAwake : Bool
  fetchCalled : Bool
  formatCalled : Bool
  publishCalled : Bool
  payload : Option LametricData
deriving DecidableEq

/-- Function `runApp` from `src/app.js`: wake (starting at attempt 1), then, only
if the wake call returned true, fetch the telemetry, format it and push
the result. -/
def runApp (resp : Nat → String) (t : ChargeTelemetry) : RunResult :=
  let isAwake := (wakeUpVehicle resp 1).1
  if isAwake then
    { isAwake := true, fetchCalled := true, formatCalled := true,
      publishCalled := true, payload := some (AppJs.constructLametricData t) }
  else
    { isAwake := false, fetchCalled := false, formatCalled := false,
      publishCalled := false, payload := none }

/-- A concrete telemetry record (not charging) used to evaluate a run. -/
def sampleTelemetry : ChargeTelemetry := ⟨50, 100, -1, 0, 0, 0⟩

/-- The telemetry record of the Policy B end-to-end scenario. -/
def scenarioTelemetry : ChargeTelemetry := ⟨60, 180.2, 22, 5.3, 1.4, 0⟩

/-- A telemetry record exercising the rounding examples 87.6 and 142.4. -/
def roundingTelemetry : ChargeTelemetry := ⟨87.6, 142.4, -1, 0, 0, 0⟩

/-- Unfolding lemma: the k-th response is "online", so the call returns
true at once after one request and no delay. -/
lemma wakeUpVehicle_online (resp : Nat → String) (a : Nat)
    (h : resp a = "online") : wakeUpVehicle resp a = (true, 1, 0) := by
  rw [wakeUpVehicle]
  simp [h]

/-- Unfolding lemma: a non-online response at attempt 6 or later returns
false after one request and no delay. -/
lemma wakeUpVehicle_giveup (resp : Nat → String) (a : Nat)
    (h : resp a ≠ "online") (h6 : 6 ≤ a) :
    wakeUpVehicle resp a = (false, 1, 0) := by
  rw [wakeUpVehicle]
  simp [h, h6]

/-- Unfolding lemma: a non-online response before attempt 6 delays once,
recurses, discards the recursive boolean and returns true. -/
lemma wakeUpVehicle_retry (resp : Nat → String) (a : Nat)
    (h : resp a ≠ "online") (h6 : a < 6) :
    wakeUpVehicle resp a =
      (true, (wakeUpVehicle resp (a + 1)).2.1 + 1,
        (wakeUpVehicle resp (a + 1)).2.2 + 1) := by
  rw [wakeUpVehicle]
  have h6' : ¬ 6 ≤ a := by omega
  simp [h, h6']

/-- The number of wake requests a call starting at attempt `a` issues is
at most `k + 1` whenever `6 - a ≤ k`. -/
lemma wakeUpVehicle_requests_le (resp : Nat → String) :
    ∀ k a, 6 - a ≤ k → (wakeUpVehicle resp a).2.1 ≤ k + 1 := by
  intro k
  induction k with
  | zero =>
    intro a ha
    by_cases h : resp a = "online"
    · rw [wakeUpVehicle_online resp a h]
    · rw [wakeUpVehicle_giveup resp a h (by omega)]
  | succ k ih =>
    intro a ha
    by_cases h : resp a = "online"
    · rw [wakeUpVehicle_online resp a h]
      show (1 : Nat) ≤ k + 1 + 1
      omega
    · by_cases h6 : 6 ≤ a
      · rw [wakeUpVehicle_giveup resp a h h6]
        simp
      · rw [wakeUpVehicle_retry resp a h (by omega)]
        have hih := ih (a + 1) (by omega)
        show (wakeUpVehicle resp (a + 1)).2.1 + 1 ≤ k + 1 + 1
        omega

/-- C1 (code bug): with every wake response reporting "asleep", the call
that reaches attempt 6 does return false, but the top-level call discards
that result, falls through to `return true` and reports true after six
requests and five delays; the orchestrator therefore fetches, formats and
publishes anyway, contradicting the GaveUp propagation the comments and
log messages of the source describe. -/
theorem c1_giveUpSwallowed :
    (wakeUpVehicle (fun _ => "asleep") 6).1 = false ∧
    wakeUpVehicle (fun _ => "asleep") 1 = (true, 6, 5) ∧
    runApp (fun _ => "asleep") sampleTelemetry =
      { isAwake := true, fetchCalled := true, formatCalled := true,
        publishCalled := true,
        payload := some (AppJs.constructLametricData sampleTelemetry) } := by
  have h : ("asleep" : String) ≠ "online" := by decide
  have hw : wakeUpVehicle (fun _ => "asleep") 1 = (true, 6, 5) := by
    rw [wakeUpVehicle_retry _ 1 h (by omega),
        wakeUpVehicle_retry _ 2 h (by omega),
        wakeUpVehicle_retry _ 3 h (by omega),
        wakeUpVehicle_retry _ 4 h (by omega),
        wakeUpVehicle_retry _ 5 h (by omega),
        wakeUpVehicle_giveup _ 6 h (by omega)]
  refine ⟨?_, hw, ?_⟩
  · rw [wakeUpVehicle_giveup _ 6 h (by omega)]
  · simp [runApp, hw]

/-- C2: one invocation of the wake controller issues at most 6 wake
requests; and if the n-th response (n between 1 and 6) is the first one
reporting "online", the loop issues exactly n requests, takes exactly
n - 1 backoff delays, and returns true. -/
theorem c2_retryBound (resp : Nat → String) :
    (wakeUpVehicle resp 1).2.1 ≤ 6 ∧
    ∀ n, 1 ≤ n → n ≤ 6 → resp n = "online" →
      (∀ k, 1 ≤ k → k < n → resp k ≠ "online") →
      wakeUpVehicle resp 1 = (true, n, n - 1) := by
  constructor
  · exact wakeUpVehicle_requests_le resp 5 1 (by omega)
  · intro n h1 h6 hon hne
    interval_cases n
    · rw [wakeUpVehicle_online resp 1 hon]
    · rw [wakeUpVehicle_retry resp 1 (hne 1 (by omega) (by omega)) (by omega),
          wakeUpVehicle_online resp 2 hon]
    · rw [wakeUpVehicle_retry resp 1 (hne 1 (by omega) (by omega)) (by omega),
          wakeUpVehicle_retry resp 2 (hne 2 (by omega) (by omega)) (by omega),
          wakeUpVehicle_online resp 3 hon]
    · rw [wakeUpVehicle_retry resp 1 (hne 1 (by omega) (by omega)) (by omega),
          wakeUpVehicle_retry resp 2 (hne 2 (by omega) (by omega)) (by omega),
          wakeUpVehicle_retry resp 3 (hne 3 (by omega) (by omega)) (by omega),
          wakeUpVehicle_online resp 4 hon]
    · rw [wakeUpVehicle_retry resp 1 (hne 1 (by omega) (by omega)) (by omega),
          wakeUpVehicle_retry resp 2 (hne 2 (by omega) (by omega)) (by omega),
          wakeUpVehicle_retry resp 3 (hne 3 (by omega) (by omega)) (by omega),
          wakeUpVehicle_retry resp 4 (hne 4 (by omega) (by omega)) (by omega),
          wakeUpVehicle_online resp 5 hon]
    · rw [wakeUpVehicle_retry resp 1 (hne 1 (by omega) (by omega)) (by omega),
          wakeUpVehicle_retry resp 2 (hne 2 (by omega) (by omega)) (by omega),
          wakeUpVehicle_retry resp 3 (hne 3 (by omega) (by omega)) (by omega),
          wakeUpVehicle_retry resp 4 (hne 4 (by omega) (by omega)) (by omega),
          wakeUpVehicle_retry resp 5 (hne 5 (by omega) (by omega)) (by omega),
          wakeUpVehicle_online resp 6 hon]

/-- C2 witness: with the third response the first online one, exactly
three requests and two delays happen. -/
theorem c2_retryBound_witness :
    wakeUpVehicle (fun k => if k = 3 then "online" else "asleep") 1 = (true, 3, 2) :=
  (c2_retryBound _).2 3 (by omega) (by omega) (by decide)
    (by intro k hk1 hk3; interval_cases k <;> decide)

/-- C3 counterexample: in the `app.js` variant the not-charging branch is
NOT a single fixed idle icon — it returns different tier icons at levels
10 and 60, so the icon depends on the battery level. -/
theorem c3_idleIconNotFixed :
    AppJs.getIcon 10 false = "i6359" ∧ AppJs.getIcon 60 false = "i6361" ∧
    AppJs.getIcon 10 false ≠ AppJs.getIcon 60 false := by
  refine ⟨?_, ?_, ?_⟩ <;> decide

/-- C3 amended: in the `part_000` variant, not charging gives the fixed
idle icon "3582" and charging gives the tier icon; in the `app.js`
variant, charging gives the single animation icon "21585" and NOT
charging gives the tier icon.  The shared tier table partitions the level
into the half-open bands [0,25), [25,50), [50,75), [75,95), [95,100]. -/
theorem c3_iconResolver (lvl : ℚ) (h0 : 0 ≤ lvl) (h100 : lvl ≤ 100) :
    PartA.getIcon lvl false = "3582" ∧
    AppJs.getIcon lvl true = "21585" ∧
    PartA.getIcon lvl true = AppJs.getIcon lvl false ∧
    (lvl < 25 → AppJs.getIcon lvl false = "i6359") ∧
    (25 ≤ lvl → lvl < 50 → AppJs.getIcon lvl false = "i6360") ∧
    (50 ≤ lvl → lvl < 75 → AppJs.getIcon lvl false = "i6361") ∧
    (75 ≤ lvl → lvl < 95 → AppJs.getIcon lvl false = "i6362") ∧
    (95 ≤ lvl → AppJs.getIcon lvl false = "i6363") := by
  refine ⟨by simp [PartA.getIcon], by simp [AppJs.getIcon],
    by simp [PartA.getIcon, AppJs.getIcon], ?_, ?_, ?_, ?_, ?_⟩
  · intro h25
    simp [AppJs.getIcon, h25]
  · intro h25 h50
    have hn : ¬ lvl < 25 := by linarith
    simp [AppJs.getIcon, hn, h50]
  · intro h50 h75
    have hn25 : ¬ lvl < 25 := by linarith
    have hn50 : ¬ lvl < 50 := by linarith
    simp [AppJs.getIcon, hn25, hn50, h75]
  · intro h75 h95
    have hn25 : ¬ lvl < 25 := by linarith
    have hn50 : ¬ lvl < 50 := by linarith
    have hn75 : ¬ lvl < 75 := by linarith
    simp [AppJs.getIcon, hn25, hn50, hn75, h95]
  · intro h95
    have hn25 : ¬ lvl < 25 := by linarith
    have hn50 : ¬ lvl < 50 := by linarith
    have hn75 : ¬ lvl < 75 := by linarith
    have hn95 : ¬ lvl < 95 := by linarith
    simp [AppJs.getIcon, hn25, hn50, hn75, hn95]

/-- C3 witness: at level 60, the `app.js` tier icon for the band
[50,75) and the `part_000` fixed idle icon. -/
theorem c3_iconResolver_witness :
    AppJs.getIcon 60 false = "i6361" ∧ PartA.getIcon 60 false = "3582" :=
  ⟨(c3_iconResolver 60 (by norm_num) (by norm_num)).2.2.2.2.2.1 (by norm_num) (by norm_num),
   (c3_iconResolver 60 (by norm_num) (by norm_num)).1⟩

/-- C4: the `app.js` formatter treats every charge rate other than the
sentinel -1.0 as charging, including 0; when charging the payload is the
three base frames followed by the three charging frames (six in all),
and at charge rate -1.0 it is exactly the three base frames. -/
theorem c4_policyB_layout (t : ChargeTelemetry) :
    (t.charge_rate ≠ -1 →
      (AppJs.constructLametricData t).frames =
        AppJs.baseFrames t ++ AppJs.chargingFrames t) ∧
    (t.charge_rate = -1 →
      (AppJs.constructLametricData t).frames = AppJs.baseFrames t) ∧
    (AppJs.baseFrames t).length = 3 ∧
    (AppJs.chargingFrames t).length = 3 ∧
    ((AppJs.constructLametricData t).frames.length = 6 ↔ t.charge_rate ≠ -1) ∧
    ((AppJs.constructLametricData t).frames.length = 3 ↔ t.charge_rate = -1) := by
  by_cases h : t.charge_rate = -1 <;>
    simp [AppJs.constructLametricData, AppJs.baseFrames, AppJs.chargingFrames, h]

/-- C4 witness: a record with charge rate 0 counts as charging and yields
the six-frame layout. -/
theorem c4_policyB_layout_witness :
    (AppJs.constructLametricData ⟨10, 20, 0, 1, 2, 0⟩).frames =
      AppJs.baseFrames ⟨10, 20, 0, 1, 2, 0⟩ ++ AppJs.chargingFrames ⟨10, 20, 0, 1, 2, 0⟩ :=
  (c4_policyB_layout ⟨10, 20, 0, 1, 2, 0⟩).1 (by norm_num)

/-- C5 counterexample: a record whose charge rate is 22 (> 0) but whose
actual charger current is 0 still gets the idle icon "3582" on frame 1
in the `part_000` variant, while the tier icon a charging state would
produce at level 60 is "i6361"; the charging flag is therefore not
derived from the charge-rate field. -/
theorem c5_chargingFieldMismatch :
    (⟨60, 100, 22, 0, 0, 0⟩ : ChargeTelemetry).charge_rate > 0 ∧
    ((PartA.constructLametricData ⟨60, 100, 22, 0, 0, 0⟩).frames[1]?).map Frame.icon =
      some "3582" ∧
    PartA.getIcon 60 true = "i6361" ∧ ("3582" : String) ≠ "i6361" := by
  refine ⟨by norm_num, ?_, by decide, by decide⟩
  simp [PartA.constructLametricData, PartA.getIcon]

/-- C5 amended: the `part_000` formatter always emits exactly the three
frames label, battery percent, range, in this order, with charging state
affecting only the icon of frame 1; its charging flag is derived from
`charger_actual_current > 0`, not from the charge-rate field. -/
theorem c5_policyA_layout (t : ChargeTelemetry) :
    (PartA.constructLametricData t).frames.length = 3 ∧
    (PartA.constructLametricData t).frames.map Frame.text =
      ["Tesla", toString (jsRound t.battery_level) ++ "%",
       toString (jsRound t.battery_range) ++ " mi"] ∧
    ((PartA.constructLametricData t).frames[1]?).map Frame.icon =
      some (PartA.getIcon t.battery_level
        (if t.charger_actual_current > 0 then true else false)) ∧
    ((PartA.constructLametricData t).frames[0]?).map Frame.icon = some "i2735" ∧
    ((PartA.constructLametricData t).frames[2]?).map Frame.icon = some "i16716" := by
  simp [PartA.constructLametricData]

/-- C6 counterexample: in the end-to-end Policy B scenario the second
frame carries the charging animation icon "21585", not the tier icon
"i6361" of the [50,75) band. -/
theorem c6_scenarioIconIsAnimation :
    ((AppJs.constructLametricData scenarioTelemetry).frames[1]?).map Frame.icon =
      some "21585" ∧
    AppJs.getIcon 60 false = "i6361" ∧ ("21585" : String) ≠ "i6361" := by
  refine ⟨?_, by decide, by decide⟩
  norm_num [AppJs.constructLametricData, AppJs.getIcon, scenarioTelemetry]

/-- C6 amended: the scenario telemetry yields six frames with the texts
"Tesla", "60%", "180 mi", "+5 mi", "22 mph", "1 hours remaining." in
order, and the second frame carries the charging animation icon
"21585". -/
theorem c6_policyB_scenario :
    (AppJs.constructLametricData scenarioTelemetry).frames.map Frame.text =
      ["Tesla", "60%", "180 mi", "+5 mi", "22 mph", "1 hours remaining."] ∧
    ((AppJs.constructLametricData scenarioTelemetry).frames[1]?).map Frame.icon =
      some "21585" ∧
    (AppJs.constructLametricData scenarioTelemetry).frames.length = 6 := by
  refine ⟨?_, ?_, ?_⟩
  · norm_num [AppJs.constructLametricData, scenarioTelemetry, jsRound]
    exact ⟨rfl, rfl, rfl, rfl, rfl⟩
  · norm_num [AppJs.constructLametricData, AppJs.getIcon, scenarioTelemetry]
  · norm_num [AppJs.constructLametricData, scenarioTelemetry]

/-- C7: the rounding used on every numeric field is nearest-integer with
ties rounded up, which on non-negative inputs is round half away from
zero (the rounded value is the unique integer in the half-open interval
from q - 1/2 exclusive to q + 1/2 inclusive); in particular a battery
level of 87.6 renders as "88%" and a range of 142.4 renders as "142 mi"
in both variants. -/
theorem c7_rounding (q : ℚ) (hq : 0 ≤ q) (t : ChargeTelemetry) :
    (q - 1/2 < (jsRound q : ℚ) ∧ (jsRound q : ℚ) ≤ q + 1/2) ∧
    (t.battery_level = 87.6 →
      ((AppJs.constructLametricData t).frames.map Frame.text)[1]? = some "88%" ∧
      ((PartA.constructLametricData t).frames.map Frame.text)[1]? = some "88%") ∧
    (t.battery_range = 142.4 →
      ((AppJs.constructLametricData t).frames.map Frame.text)[2]? = some "142 mi" ∧
      ((PartA.constructLametricData t).frames.map Frame.text)[2]? = some "142 mi") := by
  have h88 : jsRound (87.6 : ℚ) = 88 := by norm_num [jsRound]
  have h142 : jsRound (142.4 : ℚ) = 142 := by norm_num [jsRound]
  refine ⟨⟨?_, ?_⟩, ?_, ?_⟩
  · have := Int.sub_one_lt_floor (q + 1/2)
    unfold jsRound
    linarith
  · have := Int.floor_le (q + 1/2)
    unfold jsRound
    linarith
  · intro h
    by_cases hc : t.charge_rate = -1 <;>
      simp [AppJs.constructLametricData, PartA.constructLametricData, h, hc, h88] <;>
      rfl
  · intro h
    by_cases hc : t.charge_rate = -1 <;>
      simp [AppJs.constructLametricData, PartA.constructLametricData, h, hc, h142] <;>
      rfl

/-- C7 witness: the tie 5/2 rounds up to 3, and the concrete record with
battery level 87.6 and range 142.4 renders as "88%" and "142 mi". -/
theorem c7_rounding_witness :
    ((5/2 : ℚ) - 1/2 < (jsRound (5/2) : ℚ) ∧ (jsRound (5/2) : ℚ) ≤ (5/2 : ℚ) + 1/2) ∧
    ((AppJs.constructLametricData roundingTelemetry).frames.map Frame.text)[1]? =
      some "88%" ∧
    ((AppJs.constructLametricData roundingTelemetry).frames.map Frame.text)[2]? =
      some "142 mi" :=
  ⟨(c7_rounding (5/2) (by norm_num) roundingTelemetry).1,
   ((c7_rounding (5/2) (by norm_num) roundingTelemetry).2.1 rfl).1,
   ((c7_rounding (5/2) (by norm_num) roundingTelemetry).2.2 rfl).1⟩

/-- C8: both formatters are pure functions of the telemetry record alone;
identical inputs give byte-identical serialized payloads.  Purity holds
by construction of the embedding: the source functions read nothing
outside their argument (the console logging they perform does not feed
back into the result). -/
theorem c8_formatterDeterministic (t1 t2 : ChargeTelemetry) (h : t1 = t2) :
    serialize (AppJs.constructLametricData t1) =
      serialize (AppJs.constructLametricData t2) ∧
    serialize (PartA.constructLametricData t1) =
      serialize (PartA.constructLametricData t2) := by
  subst h
  exact ⟨rfl, rfl⟩

/-- C8 witness: determinism at a concrete record. -/
theorem c8_formatterDeterministic_witness :
    serialize (AppJs.constructLametricData ⟨1, 2, 3, 4, 5, 6⟩) =
      serialize (AppJs.constructLametricData ⟨1, 2, 3, 4, 5, 6⟩) :=
  (c8_formatterDeterministic ⟨1, 2, 3, 4, 5, 6⟩ ⟨1, 2, 3, 4, 5, 6⟩ rfl).1

/-- C9: every payload of either variant has at least one frame, and the
frames come in the fixed order label, battery percent, range, followed in
the `app.js` variant by the three charging frames exactly when the charge
rate is not the sentinel -1.0. -/
theorem c9_payloadInvariants (t : ChargeTelemetry) :
    1 ≤ (AppJs.constructLametricData t).frames.length ∧
    1 ≤ (PartA.constructLametricData t).frames.length ∧
    (PartA.constructLametricData t).frames.map Frame.text =
      ["Tesla", toString (jsRound t.battery_level) ++ "%",
       toString (jsRound t.battery_range) ++ " mi"] ∧
    (AppJs.constructLametricData t).frames.map Frame.text =
      ["Tesla", toString (jsRound t.battery_level) ++ "%",
       toString (jsRound t.battery_range) ++ " mi"] ++
      (if t.charge_rate ≠ -1 then
        ["+" ++ toString (jsRound t.charge_miles_added_ideal) ++ " mi",
         toString (jsRound t.charge_rate) ++ " mph",
         toString (jsRound t.time_to_full_charge) ++ " hours remaining."]
       else []) := by
  by_cases h : t.charge_rate = -1 <;>
    simp [AppJs.constructLametricData, PartA.constructLametricData, h]

/-- C10: in both variants the first frame is the constant Tesla label
frame with icon "i2735", independent of every telemetry field. -/
theorem c10_firstFrameConstant (t : ChargeTelemetry) :
    (AppJs.constructLametricData t).frames[0]? =
      some { text := "Tesla", icon := "i2735", index := none } ∧
    (PartA.constructLametricData t).frames[0]? =
      some { text := "Tesla", icon := "i2735", index := some 0 } := by
  by_cases h : t.charge_rate = -1 <;>
    simp [AppJs.constructLametricData, PartA.constructLametricData, h]
